import Mathlib

/-!
# Verification of the FactoryRecourcesOptimization cost models

Shallow embedding of `Costs.py` and `Optimization.py` over exact rationals.

Modelling conventions, applied uniformly:
* Python floats become `ℚ`.  Machine rounding is not modelled; the claims under
  check are about exact arithmetic relations of the formulas.
* The external pseudo-random source is an explicit input: every Monte-Carlo
  trial receives the drawn normal variates directly and the uniform draws
  (`np.random.rand()`), so a comparison `np.random.rand() < p` is embedded as
  `u < p` for the supplied draw `u`.
* `int(x)` on a float is truncation toward zero (`pyInt`); Python's `round(x, d)`
  is round-half-to-even at `d` decimal digits (`pyRound`).
* Python dictionaries keyed by material name become a `List Material`;
  `dict.get k default` on the loosely typed parameter bags becomes
  `Option.getD`.
* The in-place mutation of the caller's inventory dictionary is embedded by
  explicit state passing: `calculate_total_cost` returns the updated inventory
  next to its result.
* Divisions are the total `ℚ` division (`q / 0 = 0`).  The one division whose
  divisor is a decision variable — `demand_risk` divides by
  `np.sum(production_plan)` — stays total in the program as well: at a zero
  sum numpy emits a `RuntimeWarning` and yields a non-finite quotient, which
  the surrounding `max(0, ·)` clamps to `0`, the same value the rational
  convention produces (`max 0 (q / 0) = max 0 0 = 0`).
-/

/-- Truncation toward zero: Python `int(x)` applied to a float. -/
def pyInt (q : ℚ) : ℤ := if 0 ≤ q then ⌊q⌋ else ⌈q⌉

/-- Round half to even to the nearest integer, as Python's builtin `round`. -/
def rhe (q : ℚ) : ℤ :=
  if q - ⌊q⌋ < 1/2 then ⌊q⌋
  else if 1/2 < q - ⌊q⌋ then ⌊q⌋ + 1
  else if ⌊q⌋ % 2 = 0 then ⌊q⌋ else ⌊q⌋ + 1

/-- Python `round(q, d)`: round half to even at `d` decimal digits. -/
def pyRound (q : ℚ) (d : ℕ) : ℚ := (rhe (q * 10 ^ d) : ℚ) / 10 ^ d

/-- `np.mean` of a list of rationals (junk value `0` on the empty list, which
Python rejects at runtime; theorems assume nonempty trial lists). -/
def meanQ (l : List ℚ) : ℚ := l.sum / l.length

/-- `np.min` of a list (junk value `0` on `[]`, where Python raises). -/
def listMin : List ℚ → ℚ
  | [] => 0
  | [x] => x
  | x :: y :: t => min x (listMin (y :: t))

/-- `np.max` of a list (junk value `0` on `[]`, where Python raises). -/
def listMax : List ℚ → ℚ
  | [] => 0
  | [x] => x
  | x :: y :: t => max x (listMax (y :: t))

lemma pyInt_mono {x y : ℚ} (h : x ≤ y) : pyInt x ≤ pyInt y := by
  unfold pyInt
  split_ifs with h1 h2 h2
  · exact Int.floor_le_floor h
  · exact absurd (le_trans h1 h) h2
  · calc ⌈x⌉ ≤ 0 := Int.ceil_le.mpr (by exact_mod_cast le_of_not_le h1)
      _ ≤ ⌊y⌋ := Int.le_floor.mpr (by exact_mod_cast h2)
  · exact Int.ceil_le_ceil h

lemma rhe_floor_le (q : ℚ) : ⌊q⌋ ≤ rhe q := by
  unfold rhe; split_ifs <;> omega

lemma rhe_le_floor_add_one (q : ℚ) : rhe q ≤ ⌊q⌋ + 1 := by
  unfold rhe; split_ifs <;> omega

lemma rhe_mono {x y : ℚ} (h : x ≤ y) : rhe x ≤ rhe y := by
  rcases lt_or_ge ⌊x⌋ ⌊y⌋ with hf | hf
  · have h1 := rhe_le_floor_add_one x
    have h2 := rhe_floor_le y
    omega
  · have hfe : ⌊x⌋ = ⌊y⌋ := le_antisymm (Int.floor_le_floor h) hf
    have hxy : x - (⌊y⌋ : ℚ) ≤ y - (⌊y⌋ : ℚ) := by
      have := sub_le_sub_right h (⌊y⌋ : ℚ); exact this
    unfold rhe
    rw [hfe]
    split_ifs <;> first | omega | linarith

lemma pyRound_mono {x y : ℚ} (d : ℕ) (h : x ≤ y) : pyRound x d ≤ pyRound y d := by
  unfold pyRound
  apply div_le_div_of_nonneg_right _ (by positivity)
  exact_mod_cast rhe_mono (mul_le_mul_of_nonneg_right h (by positivity))

lemma listMin_le_of_mem (l : List ℚ) (x : ℚ) (hx : x ∈ l) : listMin l ≤ x := by
  induction l with
  | nil => simp at hx
  | cons a t ih =>
    cases t with
    | nil =>
      rcases List.mem_cons.mp hx with rfl | hmem
      · exact le_of_eq rfl
      · simp at hmem
    | cons b t2 =>
      rw [listMin]
      rcases List.mem_cons.mp hx with rfl | hmem
      · exact min_le_left _ _
      · exact le_trans (min_le_right _ _) (ih hmem)

lemma le_listMax_of_mem (l : List ℚ) (x : ℚ) (hx : x ∈ l) : x ≤ listMax l := by
  induction l with
  | nil => simp at hx
  | cons a t ih =>
    cases t with
    | nil =>
      rcases List.mem_cons.mp hx with rfl | hmem
      · exact le_of_eq rfl
      · simp at hmem
    | cons b t2 =>
      rw [listMax]
      rcases List.mem_cons.mp hx with rfl | hmem
      · exact le_max_left _ _
      · exact le_trans (ih hmem) (le_max_right _ _)

lemma le_sum_of_forall_le (l : List ℚ) (c : ℚ) (h : ∀ x ∈ l, c ≤ x) :
    (l.length : ℚ) * c ≤ l.sum := by
  induction l with
  | nil => simp
  | cons a t ih =>
    have h1 : c ≤ a := h a (List.mem_cons_self _ _)
    have h2 := ih (fun x hx => h x (List.mem_cons_of_mem _ hx))
    simp only [List.length_cons, List.sum_cons]
    push_cast
    have e : ((t.length : ℚ) + 1) * c = (t.length : ℚ) * c + c := by ring
    rw [e]
    linarith

lemma sum_le_of_forall_le (l : List ℚ) (c : ℚ) (h : ∀ x ∈ l, x ≤ c) :
    l.sum ≤ (l.length : ℚ) * c := by
  induction l with
  | nil => simp
  | cons a t ih =>
    have h1 : a ≤ c := h a (List.mem_cons_self _ _)
    have h2 := ih (fun x hx => h x (List.mem_cons_of_mem _ hx))
    simp only [List.length_cons, List.sum_cons]
    push_cast
    have e : ((t.length : ℚ) + 1) * c = (t.length : ℚ) * c + c := by ring
    rw [e]
    linarith

lemma length_pos_q {l : List ℚ} (h : l ≠ []) : 0 < (l.length : ℚ) := by
  have : 0 < l.length := List.length_pos.mpr h
  exact_mod_cast this

lemma listMin_le_meanQ {l : List ℚ} (h : l ≠ []) : listMin l ≤ meanQ l := by
  have hl := length_pos_q h
  rw [meanQ, le_div_iff₀ hl, mul_comm]
  exact le_sum_of_forall_le l (listMin l) (fun x hx => listMin_le_of_mem l x hx)

lemma meanQ_le_listMax {l : List ℚ} (h : l ≠ []) : meanQ l ≤ listMax l := by
  have hl := length_pos_q h
  rw [meanQ, div_le_iff₀ hl, mul_comm]
  exact sum_le_of_forall_le l (listMax l) (fun x hx => le_listMax_of_mem l x hx)

lemma listMin_cons_of_ne {x : ℚ} {l : List ℚ} (h : l ≠ []) :
    listMin (x :: l) = min x (listMin l) := by
  cases l with
  | nil => exact absurd rfl h
  | cons a t => rfl

lemma listMax_cons_of_ne {x : ℚ} {l : List ℚ} (h : l ≠ []) :
    listMax (x :: l) = max x (listMax l) := by
  cases l with
  | nil => exact absurd rfl h
  | cons a t => rfl

lemma listMin_append {a b : List ℚ} (ha : a ≠ []) (hb : b ≠ []) :
    listMin (a ++ b) = min (listMin a) (listMin b) := by
  induction a with
  | nil => exact absurd rfl ha
  | cons x t ih =>
    cases t with
    | nil =>
      simp only [List.cons_append, List.nil_append]
      rw [listMin_cons_of_ne hb, listMin]
    | cons y t2 =>
      have hne : (y :: t2 : List ℚ) ≠ [] := List.cons_ne_nil _ _
      have hih := ih hne
      rw [List.cons_append] at hih
      simp only [List.cons_append]
      rw [show listMin (x :: y :: (t2 ++ b)) = min x (listMin (y :: (t2 ++ b))) from rfl]
      rw [hih]
      rw [show listMin (x :: y :: t2) = min x (listMin (y :: t2)) from rfl]
      rw [min_assoc]

lemma listMax_append {a b : List ℚ} (ha : a ≠ []) (hb : b ≠ []) :
    listMax (a ++ b) = max (listMax a) (listMax b) := by
  induction a with
  | nil => exact absurd rfl ha
  | cons x t ih =>
    cases t with
    | nil =>
      simp only [List.cons_append, List.nil_append]
      rw [listMax_cons_of_ne hb, listMax]
    | cons y t2 =>
      have hne : (y :: t2 : List ℚ) ≠ [] := List.cons_ne_nil _ _
      have hih := ih hne
      rw [List.cons_append] at hih
      simp only [List.cons_append]
      rw [show listMax (x :: y :: (t2 ++ b)) = max x (listMax (y :: (t2 ++ b))) from rfl]
      rw [hih]
      rw [show listMax (x :: y :: t2) = max x (listMax (y :: t2)) from rfl]
      rw [max_assoc]

/-!
## Costs.py — the Monte-Carlo cost models

A `Material` bundles the entries of the three aligned dictionaries
`material_per_box`, `base_prices` and `price_volatility` for one material
name.  `volatility` only parameterizes the external normal sampler, whose
draws are supplied directly to each trial.
-/

structure Material where
  name : String
  perBox : ℚ
  basePrice : ℚ
  volatility : ℚ
deriving DecidableEq

/-- Result record of `calculate_raw_material_costs`.  `safety_stock` is listed
in the order of the materials. -/
structure RawMaterialResult where
  expected_cost : ℤ
  min_cost : ℤ
  max_cost : ℤ
  risk_above_budget : ℚ
  safety_stock : List ℚ
deriving DecidableEq

/-- `required_materials[m] = target_boxes * (1 + defect_rate) * material_per_box[m]`. -/
def requiredMaterial (target defect : ℚ) (m : Material) : ℚ :=
  target * (1 + defect) * m.perBox

/-- `safety_stock[m] = required_materials[m] / 30 * safety_stock_days`. -/
def safetyStockOf (target defect days : ℚ) (m : Material) : ℚ :=
  requiredMaterial target defect m / 30 * days

/-- One Monte-Carlo trial of the raw-material model: for each material the
sampled price and the uniform draw deciding the delivery delay
(`np.random.rand() < delivery_risk`). -/
def rawTrialCost (mats : List Material) (target defect delivery_risk days : ℚ)
    (draws : List (ℚ × ℚ)) : ℚ :=
  (List.zipWith (fun (m : Material) (d : ℚ × ℚ) =>
    d.1 * (if d.2 < delivery_risk
           then requiredMaterial target defect m + safetyStockOf target defect days m
           else requiredMaterial target defect m)) mats draws).sum

/-- `calculate_raw_material_costs` (Costs.py).  `trials` carries one entry per
Monte-Carlo scenario, holding the per-material `(price, uniform)` draws. -/
def calculate_raw_material_costs (mats : List Material)
    (target defect delivery_risk days : ℚ)
    (trials : List (List (ℚ × ℚ))) : RawMaterialResult :=
  let costs := trials.map (rawTrialCost mats target defect delivery_risk days)
  let base_budget := (mats.map (fun m => m.basePrice * requiredMaterial target defect m)).sum
  { expected_cost := pyInt (meanQ costs)
    min_cost := pyInt (listMin costs)
    max_cost := pyInt (listMax costs)
    risk_above_budget :=
      pyRound (100 * meanQ (costs.map (fun c => if base_budget < c then 1 else 0))) 1
    safety_stock := mats.map (safetyStockOf target defect days) }

/-- The keyword parameters of `calculate_production_costs` that travel in the
`production_params` dictionary.  `target_boxes` and `product_value` model the
two extra keys the aggregator reads from the same dictionary with
`dict.get(key, default)` (absent in every configuration that can actually be
splatted into `calculate_production_costs`). -/
structure ProductionParams where
  energy_per_box : ℚ
  maintenance_per_box : ℚ
  rent : ℚ
  utilities : ℚ
  equipment_depreciation : ℚ
  certification : ℚ
  internal_logistics : ℚ
  it_infrastructure : ℚ
  waste_disposal : ℚ
  production_tax : ℚ
  equipment_insurance : ℚ
  energy_price_mean : ℚ
  energy_price_std : ℚ
  equipment_failure_rate : ℚ
  failure_extra_cost : ℚ
  target_boxes : Option ℚ := none
  product_value : Option ℚ := none
deriving DecidableEq

/-- Result record of `calculate_production_costs`. -/
structure ProductionResult where
  total_cost : ℤ
  min_cost : ℤ
  max_cost : ℤ
  failure_risk : ℚ
  cost_breakdown : List (String × ℤ)
deriving DecidableEq

/-- The nine fixed monthly cost components, summed once. -/
def fixedCosts (p : ProductionParams) : ℚ :=
  p.rent + p.utilities + p.equipment_depreciation + p.certification +
    p.internal_logistics + p.it_infrastructure + p.waste_disposal +
    p.production_tax + p.equipment_insurance

/-- One production trial: sampled energy price and the uniform draw deciding
an equipment failure. -/
def productionTrialCost (p : ProductionParams) (target : ℚ) (t : ℚ × ℚ) : ℚ :=
  p.energy_per_box * target * t.1 + p.maintenance_per_box * target + fixedCosts p +
    (if t.2 < p.equipment_failure_rate then p.failure_extra_cost else 0)

/-- `calculate_production_costs` (Costs.py). -/
def calculate_production_costs (target : ℚ) (p : ProductionParams)
    (trials : List (ℚ × ℚ)) : ProductionResult :=
  let costs := trials.map (productionTrialCost p target)
  { total_cost := pyInt (meanQ costs)
    min_cost := pyInt (listMin costs)
    max_cost := pyInt (listMax costs)
    failure_risk := pyRound (p.equipment_failure_rate * 100) 1
    cost_breakdown :=
      [("energy", pyInt (p.energy_per_box * target * p.energy_price_mean)),
       ("maintenance", pyInt (p.maintenance_per_box * target)),
       ("rent", pyInt p.rent),
       ("utilities", pyInt p.utilities),
       ("depreciation", pyInt p.equipment_depreciation),
       ("certification", pyInt p.certification),
       ("logistics", pyInt p.internal_logistics),
       ("it", pyInt p.it_infrastructure),
       ("waste", pyInt p.waste_disposal),
       ("tax", pyInt p.production_tax),
       ("insurance", pyInt p.equipment_insurance),
       ("failure_risk_cost", pyInt (p.failure_extra_cost * p.equipment_failure_rate))] }

/-- The `storage_params` dictionary (`inventory_value` is a separate argument
of `calculate_storage_costs`, supplied by the aggregator). -/
structure StorageParams where
  storage_volume : ℚ
  used_volume : ℚ
  rent_per_month : ℚ
  security_systems_cost : ℚ
  wms_cost : ℚ
  utilities_cost : ℚ
  insurance_rate : ℚ
  depreciation_cost : ℚ
  storage_cost_per_m3 : ℚ
  internal_logistics_cost : ℚ
  spoilage_rate : ℚ
  rent_volatility : ℚ
  spoilage_risk : ℚ
  security_breach_risk : ℚ
deriving DecidableEq

/-- Result record of `calculate_storage_costs` (risk breakdown held both raw,
as returned under `risk_breakdown`, and rounded to 2 digits as under
`cost_breakdown.risk_costs`). -/
structure StorageResult where
  base_cost : ℚ
  avg_total_cost : ℚ
  min_cost : ℚ
  max_cost : ℚ
  risk_rent_increase : ℚ
  risk_extra_spoilage : ℚ
  risk_security_incidents : ℚ
  rounded_rent_increase : ℚ
  rounded_extra_spoilage : ℚ
  rounded_security_incidents : ℚ
deriving DecidableEq

/-- `base_fixed_costs + base_variable_costs` of the storage model. -/
def storageBaseCost (inventory_value : ℚ) (p : StorageParams) : ℚ :=
  (p.rent_per_month + p.security_systems_cost + p.wms_cost + p.utilities_cost +
      inventory_value * p.insurance_rate / 12 + p.depreciation_cost) +
    (p.used_volume * p.storage_cost_per_m3 + p.internal_logistics_cost +
      inventory_value * p.spoilage_rate)

/-- One storage trial: the three uniform draws for the rent-increase (fixed
10 % probability), extra-spoilage and security-breach events. -/
def storageTrialCost (inventory_value : ℚ) (p : StorageParams) (t : ℚ × ℚ × ℚ) : ℚ :=
  storageBaseCost inventory_value p +
    ((if t.1 < 1/10 then p.rent_per_month * p.rent_volatility else 0) +
     (if t.2.1 < p.spoilage_risk then inventory_value * p.spoilage_rate * 2 else 0) +
     (if t.2.2 < p.security_breach_risk then inventory_value * (1/100) else 0))

/-- `calculate_storage_costs` (Costs.py).  The per-event running averages of
the Python loop (`+= cost / n_simulations` on each hit) are the sums below. -/
def calculate_storage_costs (inventory_value : ℚ) (p : StorageParams)
    (trials : List (ℚ × ℚ × ℚ)) : StorageResult :=
  let n : ℚ := trials.length
  let costs := trials.map (storageTrialCost inventory_value p)
  let rent_inc := (trials.map (fun t =>
    if t.1 < 1/10 then p.rent_per_month * p.rent_volatility / n else 0)).sum
  let spoil := (trials.map (fun t =>
    if t.2.1 < p.spoilage_risk then inventory_value * p.spoilage_rate * 2 / n else 0)).sum
  let breach := (trials.map (fun t =>
    if t.2.2 < p.security_breach_risk then inventory_value * (1/100) / n else 0)).sum
  { base_cost := pyRound (storageBaseCost inventory_value p) 2
    avg_total_cost := pyRound (meanQ costs) 2
    min_cost := pyRound (listMin costs) 2
    max_cost := pyRound (listMax costs) 2
    risk_rent_increase := rent_inc
    risk_extra_spoilage := spoil
    risk_security_incidents := breach
    rounded_rent_increase := pyRound rent_inc 2
    rounded_extra_spoilage := pyRound spoil 2
    rounded_security_incidents := pyRound breach 2 }

/-- The `logistics_params` dictionary.  `estimated_sales` models the extra key
that only the aggregator reads, via `logistics_params.get('estimated_sales',
production * 0.9)`. -/
structure LogisticsParams where
  distance_supplier : ℚ
  distance_customer : ℚ
  truck_capacity : ℚ
  truck_cost_per_km : ℚ
  truck_fixed_cost : ℚ
  contractor_cost_per_m3 : ℚ
  contractor_delay_risk : ℚ
  fuel_price_mean : ℚ
  fuel_price_std : ℚ
  damage_risk : ℚ
  damage_cost_per_m3 : ℚ
  estimated_sales : Option ℚ := none
deriving DecidableEq

/-- The two shipping strategies; `inhouse` renders the source's own-fleet
string literal and `contractor` the contracted-carrier one. -/
inductive Strategy where
  | inhouse
  | contractor
deriving DecidableEq

/-- Result record of `calculate_logistics_costs`. -/
structure LogisticsResult where
  total_cost : ℤ
  min_cost : ℤ
  max_cost : ℤ
  optimal_strategy : Strategy
  delay_risk : ℚ
  damage_risk : ℚ
  own_transport : ℤ
  own_fixed : ℚ
  own_fuel : ℤ
  contractor_transfer : ℤ
  contractor_delay_fees : ℤ
deriving DecidableEq

/-- `trucks_needed = int(np.ceil(total_volume / truck_capacity))`. -/
def trucksNeeded (p : LogisticsParams) (total_volume : ℚ) : ℤ :=
  ⌈total_volume / p.truck_capacity⌉

/-- One logistics trial for the in-house fleet.  The trial carries
`(fuel_price, uniform-for-delay, uniform-for-damage)`; delay and damage draws
are shared with the contractor strategy in the same trial. -/
def ownTrialCost (p : LogisticsParams) (total_volume : ℚ) (t : ℚ × ℚ × ℚ) : ℚ :=
  p.truck_cost_per_km * (p.distance_supplier + p.distance_customer) *
      (trucksNeeded p total_volume : ℚ) +
    p.truck_fixed_cost * (trucksNeeded p total_volume : ℚ) +
    t.1 * (1/10) * (p.distance_supplier + p.distance_customer) *
      (trucksNeeded p total_volume : ℚ) +
    (if t.2.2 < p.damage_risk then p.damage_cost_per_m3 * total_volume * (1/2) else 0)

/-- One logistics trial for the contractor: a 20 % delay penalty multiplies
the base rate before the damage surcharge is added, as in the source. -/
def contractorTrialCost (p : LogisticsParams) (total_volume : ℚ) (t : ℚ × ℚ × ℚ) : ℚ :=
  (if t.2.1 < p.contractor_delay_risk
   then p.contractor_cost_per_m3 * total_volume * (12/10)
   else p.contractor_cost_per_m3 * total_volume) +
    (if t.2.2 < p.damage_risk then p.damage_cost_per_m3 * total_volume * (3/10) else 0)

/-- The in-house per-trial sample list (`simulated_own_costs`). -/
def ownSamples (p : LogisticsParams) (raw_volume goods_volume : ℚ)
    (trials : List (ℚ × ℚ × ℚ)) : List ℚ :=
  trials.map (ownTrialCost p (raw_volume + goods_volume))

/-- The contractor per-trial sample list (`simulated_contractor_costs`). -/
def contractorSamples (p : LogisticsParams) (raw_volume goods_volume : ℚ)
    (trials : List (ℚ × ℚ × ℚ)) : List ℚ :=
  trials.map (contractorTrialCost p (raw_volume + goods_volume))

/-- `calculate_logistics_costs` (Costs.py). -/
def calculate_logistics_costs (raw_volume goods_volume : ℚ) (p : LogisticsParams)
    (trials : List (ℚ × ℚ × ℚ)) : LogisticsResult :=
  let total_volume := raw_volume + goods_volume
  let trucks : ℚ := (trucksNeeded p total_volume : ℚ)
  let own := ownSamples p raw_volume goods_volume trials
  let con := contractorSamples p raw_volume goods_volume trials
  let mean_own := meanQ own
  let mean_con := meanQ con
  { total_cost := pyInt (min mean_own mean_con)
    min_cost := pyInt (min (listMin own) (listMin con))
    max_cost := pyInt (max (listMax own) (listMax con))
    optimal_strategy := if mean_own < mean_con then Strategy.inhouse else Strategy.contractor
    delay_risk := pyRound (p.contractor_delay_risk * 100) 1
    damage_risk := pyRound (p.damage_risk * 100) 1
    own_transport :=
      pyInt (p.truck_cost_per_km * (p.distance_supplier + p.distance_customer) * trucks)
    own_fixed := p.truck_fixed_cost * trucks
    own_fuel :=
      pyInt (p.fuel_price_mean * (1/10) * (p.distance_supplier + p.distance_customer) * trucks)
    contractor_transfer := pyInt (p.contractor_cost_per_m3 * total_volume)
    contractor_delay_fees :=
      pyInt (p.contractor_cost_per_m3 * total_volume * (2/10) * p.contractor_delay_risk) }

/-- The `labor_params` dictionary of `calculate_labor_vs_automation`. -/
structure LaborParams where
  workers_productivity : ℚ
  worker_salary : ℚ
  worker_tax_rate : ℚ
  worker_training_cost : ℚ
  robot_productivity : ℚ
  robot_cost : ℚ
  robot_lifespan : ℚ
  robot_maintenance : ℚ
  robot_software_cost : ℚ
  discount_rate : ℚ
  n_years : ℕ
  risk_adjustment : ℚ
deriving DecidableEq

/-- The options compared by the labor model. -/
inductive LaborChoice where
  | labor
  | automation
deriving DecidableEq

/-- Result record of `calculate_labor_vs_automation`. -/
structure LaborResult where
  optimal_solution : LaborChoice
  labor_cost : ℤ
  automation_cost : ℤ
  break_even_months : Option ℕ
  n_workers : ℤ
  n_robots : ℤ
deriving DecidableEq

/-- `sum over month = 1..n of c / (1 + r/12)^month`: a level monthly cost `c`
discounted at the monthly rate `r/12`. -/
def discountedStream (c r : ℚ) (n : ℕ) : ℚ :=
  ((List.range n).map (fun m => c / (1 + r / 12) ^ (m + 1))).sum

/-- The break-even scan: first month whose cumulative discounted savings reach
the initial robot investment. -/
def breakEvenScan (monthly_savings r initial : ℚ) : List ℕ → ℚ → Option ℕ
  | [], _ => none
  | m :: rest, acc =>
    let acc2 := acc + monthly_savings / (1 + r / 12) ^ (m + 1)
    if initial ≤ acc2 then some (m + 1) else breakEvenScan monthly_savings r initial rest acc2

/-- `calculate_labor_vs_automation` (Costs.py).  Deterministic: no trials. -/
def calculate_labor_vs_automation (target : ℚ) (p : LaborParams) : LaborResult :=
  let n_months := p.n_years * 12
  let n_workers : ℤ := ⌈target / p.workers_productivity⌉
  let monthly_labor_cost := (n_workers : ℚ) * p.worker_salary * (1 + p.worker_tax_rate)
  let annual_training := p.worker_training_cost * (n_workers : ℚ) / 12
  let labor_cost_npv := discountedStream (monthly_labor_cost + annual_training)
    p.discount_rate n_months
  let n_robots : ℤ := ⌈target / p.robot_productivity⌉
  let initial_robot_cost := (n_robots : ℚ) * p.robot_cost
  let monthly_robot_cost := p.robot_maintenance * (n_robots : ℚ) + p.robot_software_cost +
    initial_robot_cost / p.robot_lifespan
  let automation_cost_npv :=
    (initial_robot_cost + discountedStream monthly_robot_cost p.discount_rate n_months) *
      (1 + p.risk_adjustment)
  let optimal : LaborChoice :=
    if labor_cost_npv < automation_cost_npv then LaborChoice.labor else LaborChoice.automation
  { optimal_solution := optimal
    labor_cost := pyInt labor_cost_npv
    automation_cost := pyInt automation_cost_npv
    break_even_months :=
      match optimal with
      | LaborChoice.labor => none
      | LaborChoice.automation =>
        breakEvenScan (monthly_labor_cost - monthly_robot_cost) p.discount_rate
          initial_robot_cost (List.range n_months) 0
    n_workers := n_workers
    n_robots := n_robots }

/-!
## Optimization.py — aggregator, objective, constraints, inventory projector
-/

/-- The caller's inventory dictionary `{'raw_material': …, 'goods': …}`. -/
structure Inventory where
  raw_material : ℚ
  goods : ℚ
deriving DecidableEq

/-- The Monte-Carlo draws consumed by one month of `calculate_total_cost`:
one trial list per invoked model. -/
structure MonthScen where
  rawTrials : List (List (ℚ × ℚ))
  prodTrials : List (ℚ × ℚ)
  storTrials : List (ℚ × ℚ × ℚ)
  logTrials : List (ℚ × ℚ × ℚ)

/-- All the configuration forwarded through `calculate_total_cost`. -/
structure AggParams where
  mats : List Material
  defect_rate : ℚ
  delivery_risk : ℚ
  safety_stock_days : ℚ
  production_params : ProductionParams
  storage_params : StorageParams
  logistics_params : LogisticsParams
  labor_params : LaborParams

/-- `sum(material_per_box.values())`. -/
def matsSum (P : AggParams) : ℚ := (P.mats.map Material.perBox).sum

/-- `base_prices['plastic']` — a keyed lookup; a missing key raises `KeyError`
in Python, the embedding returns `0` there (no claim depends on that value). -/
def plasticBasePrice (P : AggParams) : ℚ :=
  ((P.mats.find? (fun m => m.name == "plastic")).map Material.basePrice).getD 0

/-- The running totals and working inventory of the aggregator's month loop. -/
structure LoopState where
  raw : ℚ
  prodc : ℚ
  stor : ℚ
  logc : ℚ
  supply : ℚ
  prisk : ℚ
  inv : Inventory

/-- One iteration of the month loop of `calculate_total_cost`: the four model
calls, the running totals, and the in-place inventory update. -/
def monthStep (P : AggParams) (plan orders : List ℚ) (months : ℕ)
    (scen : ℕ → MonthScen) (st : LoopState) (m : ℕ) : LoopState :=
  let rres := calculate_raw_material_costs P.mats (orders.getD m 0) P.defect_rate
    P.delivery_risk P.safety_stock_days (scen m).rawTrials
  let pres := calculate_production_costs (plan.getD m 0) P.production_params (scen m).prodTrials
  let inventory_value := st.inv.raw_material * plasticBasePrice P +
    st.inv.goods * (P.production_params.product_value.getD 1000)
  let sres := calculate_storage_costs inventory_value P.storage_params (scen m).storTrials
  let lres := calculate_logistics_costs (orders.getD m 0 * matsSum P / 1000)
    (plan.getD m 0 * (1/100)) P.logistics_params (scen m).logTrials
  { raw := st.raw + (rres.expected_cost : ℚ)
    prodc := st.prodc + (pres.total_cost : ℚ)
    stor := st.stor + sres.avg_total_cost
    logc := st.logc + (lres.total_cost : ℚ)
    supply := st.supply + rres.risk_above_budget / (months : ℚ)
    prisk := st.prisk + pres.failure_risk / (months : ℚ)
    inv := { raw_material := st.inv.raw_material + (orders.getD m 0 - plan.getD m 0 * matsSum P)
             goods := st.inv.goods + (plan.getD m 0 -
               P.logistics_params.estimated_sales.getD (plan.getD m 0 * (9/10))) } }

/-- The whole month loop, starting from zero totals and the caller's inventory. -/
def monthLoop (plan orders : List ℚ) (inv : Inventory) (P : AggParams)
    (scen : ℕ → MonthScen) : LoopState :=
  (List.range plan.length).foldl (monthStep P plan orders plan.length scen)
    ⟨0, 0, 0, 0, 0, 0, inv⟩

/-- `max(0, (np.sum(plan) - total_months * target) / np.sum(plan))` — the
`demand_risk` formula of `calculate_total_cost` (line 209).  At a plan summing
to zero, numpy divides by zero with a `RuntimeWarning` and yields `-inf` (or
`nan` when the numerator is also zero) and `max(0, ·)` clamps either to `0`;
the rational convention `q / 0 = 0` gives the same clamped value. -/
def demandRiskVal (plan : List ℚ) (target : ℚ) : ℚ :=
  max 0 ((plan.sum - (plan.length : ℚ) * target) / plan.sum)

/-- The `risk_metrics` dictionary. -/
structure RiskMetrics where
  supply_risk : ℚ
  production_risk : ℚ
  demand_risk : ℚ
  total_risk : ℚ
deriving DecidableEq

/-- The `cost_breakdown` dictionary of `calculate_total_cost`. -/
structure CostBreakdown where
  raw_materials : ℚ
  production : ℚ
  storage : ℚ
  logistics : ℚ
  labor : ℚ
deriving DecidableEq

/-- The dictionary returned by `calculate_total_cost`. -/
structure TotalCostResult where
  total_cost : ℚ
  cost_breakdown : CostBreakdown
  risk_metrics : RiskMetrics
deriving DecidableEq

/-- The dictionary built after the month loop: labor model, demand risk,
totals. -/
def aggregateRecord (plan : List ℚ) (P : AggParams) (st : LoopState) : TotalCostResult :=
  let months := plan.length
  let lab := calculate_labor_vs_automation (meanQ plan) P.labor_params
  let chosen : ℤ :=
    match lab.optimal_solution with
    | LaborChoice.labor => lab.labor_cost
    | LaborChoice.automation => lab.automation_cost
  let total_labor : ℚ := (chosen : ℚ) / (months : ℚ)
  let demand := demandRiskVal plan (P.production_params.target_boxes.getD 10000)
  { total_cost := st.raw + st.prodc + st.stor + st.logc + total_labor
    cost_breakdown := ⟨st.raw, st.prodc, st.stor, st.logc, total_labor⟩
    risk_metrics := ⟨st.supply, st.prisk, demand,
      (st.supply + st.prisk + demand) / 3⟩ }

/-- `calculate_total_cost` (Optimization.py).  The second component is the
caller's inventory dictionary as left behind by the month loop (the in-place
mutation). -/
def calculate_total_cost (plan orders : List ℚ) (inv : Inventory) (P : AggParams)
    (scen : ℕ → MonthScen) : TotalCostResult × Inventory :=
  let st := monthLoop plan orders inv P scen
  (aggregateRecord plan P st, st.inv)

/-- The `objective` closure of `optimize_business_costs`: total cost plus the
target-deviation penalty plus the risk penalty; the mutated inventory is
threaded through. -/
def objective (target_boxes risk_tolerance : ℚ) (n_months : ℕ) (inv : Inventory)
    (P : AggParams) (scen : ℕ → MonthScen) (x : List ℚ) : ℚ × Inventory :=
  let production := x.take n_months
  let raw_material_orders := (x.drop n_months).take n_months
  let res := calculate_total_cost production raw_material_orders inv P scen
  (res.1.total_cost + (production.map (fun p => (p - target_boxes) ^ 2)).sum * 100 +
      max 0 (res.1.risk_metrics.total_risk - risk_tolerance) * 1000000,
   res.2)

/-- One scipy constraint dictionary `{'type': …, 'fun': …}`.  The function is
vector-valued (`x[0:n]`-style slices; the budget constraint returns a
singleton). -/
structure SciConstraint where
  ctype : String
  cfun : List ℚ → List ℚ

/-- The production non-negativity constraint `x[0:n_months] >= 0`. -/
def prodNonnegConstraint (n_months : ℕ) : SciConstraint :=
  ⟨"ineq", fun x => x.take n_months⟩

/-- The purchase non-negativity constraint `x[n_months:2*n_months] >= 0`. -/
def ordersNonnegConstraint (n_months : ℕ) : SciConstraint :=
  ⟨"ineq", fun x => (x.drop n_months).take n_months⟩

/-- The budget constraint `budget - calculate_total_cost(...)['total_cost'] >= 0`. -/
def budgetConstraintEntry (n_months : ℕ) (inv : Inventory) (P : AggParams)
    (scen : ℕ → MonthScen) (b : ℚ) : SciConstraint :=
  ⟨"ineq", fun x =>
    [b - (calculate_total_cost (x.take n_months) ((x.drop n_months).take n_months)
        inv P scen).1.total_cost]⟩

/-- The constraint list built by `optimize_business_costs` (lines 50-67):
the two non-negativity constraints, plus the budget constraint only when
`budget_constraint` is truthy (`if budget_constraint:` — `None` and `0` are
both falsy). -/
def optimizationConstraints (n_months : ℕ) (inv : Inventory) (P : AggParams)
    (scen : ℕ → MonthScen) (budget_constraint : Option ℚ) : List SciConstraint :=
  [prodNonnegConstraint n_months, ordersNonnegConstraint n_months] ++
    (match budget_constraint with
     | none => []
     | some b => if b = 0 then [] else [budgetConstraintEntry n_months inv P scen b])

/-- The month-by-month trajectory returned by `project_inventory`. -/
structure InventoryProjection where
  raw_material : List ℚ
  finished_goods : List ℚ
deriving DecidableEq

/-- The loop of `project_inventory`: both levels are clamped with
`max(0, ...)` each month before being appended. -/
def projectGo (plan orders : List ℚ) (s : ℚ) : List ℕ → ℚ → ℚ → List ℚ × List ℚ
  | [], _, _ => ([], [])
  | m :: rest, raw, goods =>
    let raw2 := max 0 (raw + (orders.getD m 0 - plan.getD m 0 * s))
    let goods2 := max 0 (goods + (plan.getD m 0 - plan.getD m 0 * (9/10)))
    let r := projectGo plan orders s rest raw2 goods2
    (raw2 :: r.1, goods2 :: r.2)

/-- `project_inventory` (Optimization.py). -/
def project_inventory (plan orders : List ℚ) (inv : Inventory) (mats : List Material) :
    InventoryProjection :=
  let s := (mats.map Material.perBox).sum
  let r := projectGo plan orders s (List.range plan.length) inv.raw_material inv.goods
  ⟨r.1, r.2⟩

/-!
## Concrete fixtures used by the witness theorems
-/

/-- A one-material configuration with all prices and rates zero. -/
def sampleMats : List Material := [⟨"plastic", 1, 1, 0⟩]

/-- All-zero production parameters, no extra dictionary keys. -/
def sampleProductionParams : ProductionParams :=
  ⟨0, 0, 0, 0, 0, 0, 0, 0, 0, 0, 0, 0, 0, 0, 0, none, none⟩

/-- All-zero storage parameters. -/
def sampleStorageParams : StorageParams := ⟨0, 0, 0, 0, 0, 0, 0, 0, 0, 0, 0, 0, 0, 0⟩

/-- All-zero logistics parameters, no `estimated_sales` key. -/
def sampleLogisticsParams : LogisticsParams := ⟨0, 0, 0, 0, 0, 0, 0, 0, 0, 0, 0, none⟩

/-- All-zero labor parameters with a zero-year horizon. -/
def sampleLaborParams : LaborParams := ⟨0, 0, 0, 0, 0, 0, 0, 0, 0, 0, 0, 0⟩

/-- The zero configuration for aggregate-level witnesses. -/
def sampleAggParams : AggParams :=
  ⟨sampleMats, 0, 0, 0, sampleProductionParams, sampleStorageParams,
    sampleLogisticsParams, sampleLaborParams⟩

/-- One trial per model per month, with uniform draws at `1` so that no risk
event fires. -/
def sampleScen : ℕ → MonthScen := fun _ => ⟨[[(0, 1)]], [(0, 1)], [(1, 1, 1)], [(0, 1, 1)]⟩

/-- An empty starting inventory. -/
def sampleInv : Inventory := ⟨0, 0⟩

/-!
## Claims
-/

lemma map_ne_nil_of_ne_nil {α β : Type} {l : List α} (f : α → β) (h : l ≠ []) :
    l.map f ≠ [] := by
  intro hc
  exact h (List.map_eq_nil_iff.mp hc)

/-- C4: for every trial count `n ≥ 1` (a nonempty trial list) and every
parameter set, each of the raw-material, production and storage Monte-Carlo
models reports `min_cost ≤ expected_cost ≤ max_cost` (the expected cost being
the `expected_cost`, `total_cost`, `avg_total_cost` field respectively). -/
theorem cost_models_min_le_expected_le_max
    (mats : List Material) (target defect drisk days : ℚ)
    (rawTrials : List (List (ℚ × ℚ)))
    (ptarget : ℚ) (pp : ProductionParams) (prodTrials : List (ℚ × ℚ))
    (inventory_value : ℚ) (sp : StorageParams) (storTrials : List (ℚ × ℚ × ℚ))
    (h1 : rawTrials ≠ []) (h2 : prodTrials ≠ []) (h3 : storTrials ≠ []) :
    ((calculate_raw_material_costs mats target defect drisk days rawTrials).min_cost ≤
        (calculate_raw_material_costs mats target defect drisk days rawTrials).expected_cost ∧
      (calculate_raw_material_costs mats target defect drisk days rawTrials).expected_cost ≤
        (calculate_raw_material_costs mats target defect drisk days rawTrials).max_cost) ∧
    ((calculate_production_costs ptarget pp prodTrials).min_cost ≤
        (calculate_production_costs ptarget pp prodTrials).total_cost ∧
      (calculate_production_costs ptarget pp prodTrials).total_cost ≤
        (calculate_production_costs ptarget pp prodTrials).max_cost) ∧
    ((calculate_storage_costs inventory_value sp storTrials).min_cost ≤
        (calculate_storage_costs inventory_value sp storTrials).avg_total_cost ∧
      (calculate_storage_costs inventory_value sp storTrials).avg_total_cost ≤
        (calculate_storage_costs inventory_value sp storTrials).max_cost) := by
  have hr := map_ne_nil_of_ne_nil (rawTrialCost mats target defect drisk days) h1
  have hp := map_ne_nil_of_ne_nil (productionTrialCost pp ptarget) h2
  have hs := map_ne_nil_of_ne_nil (storageTrialCost inventory_value sp) h3
  refine ⟨⟨?_, ?_⟩, ⟨?_, ?_⟩, ⟨?_, ?_⟩⟩
  · exact pyInt_mono (listMin_le_meanQ hr)
  · exact pyInt_mono (meanQ_le_listMax hr)
  · exact pyInt_mono (listMin_le_meanQ hp)
  · exact pyInt_mono (meanQ_le_listMax hp)
  · exact pyRound_mono 2 (listMin_le_meanQ hs)
  · exact pyRound_mono 2 (meanQ_le_listMax hs)

/-- Witness for C4 at a concrete one-trial input. -/
theorem cost_models_min_le_expected_le_max_witness :
    ((calculate_raw_material_costs [] 0 0 0 0 [[]]).min_cost ≤
        (calculate_raw_material_costs [] 0 0 0 0 [[]]).expected_cost ∧
      (calculate_raw_material_costs [] 0 0 0 0 [[]]).expected_cost ≤
        (calculate_raw_material_costs [] 0 0 0 0 [[]]).max_cost) ∧
    ((calculate_production_costs 0 sampleProductionParams [(0, 1)]).min_cost ≤
        (calculate_production_costs 0 sampleProductionParams [(0, 1)]).total_cost ∧
      (calculate_production_costs 0 sampleProductionParams [(0, 1)]).total_cost ≤
        (calculate_production_costs 0 sampleProductionParams [(0, 1)]).max_cost) ∧
    ((calculate_storage_costs 0 sampleStorageParams [(1, 1, 1)]).min_cost ≤
        (calculate_storage_costs 0 sampleStorageParams [(1, 1, 1)]).avg_total_cost ∧
      (calculate_storage_costs 0 sampleStorageParams [(1, 1, 1)]).avg_total_cost ≤
        (calculate_storage_costs 0 sampleStorageParams [(1, 1, 1)]).max_cost) :=
  cost_models_min_le_expected_le_max [] 0 0 0 0 [[]] 0 sampleProductionParams [(0, 1)]
    0 sampleStorageParams [(1, 1, 1)]
    (List.cons_ne_nil _ _) (List.cons_ne_nil _ _) (List.cons_ne_nil _ _)

/-- C5: `calculate_logistics_costs` chooses as `optimal_strategy` whichever
strategy has the strictly lower mean trial cost (contractor on ties), reports
`total_cost` as that lower mean (truncated to an integer), and reports
`min_cost`/`max_cost` as the minimum/maximum over the union of both
strategies' per-trial samples, not only the chosen strategy's. -/
theorem logistics_strategy_and_envelope (raw_volume goods_volume : ℚ)
    (p : LogisticsParams) (trials : List (ℚ × ℚ × ℚ)) (h : trials ≠ []) :
    ((calculate_logistics_costs raw_volume goods_volume p trials).optimal_strategy =
        Strategy.inhouse ↔
      meanQ (ownSamples p raw_volume goods_volume trials) <
        meanQ (contractorSamples p raw_volume goods_volume trials)) ∧
    (calculate_logistics_costs raw_volume goods_volume p trials).total_cost =
      pyInt (min (meanQ (ownSamples p raw_volume goods_volume trials))
        (meanQ (contractorSamples p raw_volume goods_volume trials))) ∧
    (calculate_logistics_costs raw_volume goods_volume p trials).min_cost =
      pyInt (listMin (ownSamples p raw_volume goods_volume trials ++
        contractorSamples p raw_volume goods_volume trials)) ∧
    (calculate_logistics_costs raw_volume goods_volume p trials).max_cost =
      pyInt (listMax (ownSamples p raw_volume goods_volume trials ++
        contractorSamples p raw_volume goods_volume trials)) := by
  have ho : ownSamples p raw_volume goods_volume trials ≠ [] :=
    map_ne_nil_of_ne_nil _ h
  have hc : contractorSamples p raw_volume goods_volume trials ≠ [] :=
    map_ne_nil_of_ne_nil _ h
  refine ⟨?_, rfl, ?_, ?_⟩
  · show (if meanQ (ownSamples p raw_volume goods_volume trials) <
        meanQ (contractorSamples p raw_volume goods_volume trials)
        then Strategy.inhouse else Strategy.contractor) = Strategy.inhouse ↔ _
    split_ifs with hlt
    · simp [hlt]
    · simp [hlt]
  · rw [listMin_append ho hc]; rfl
  · rw [listMax_append ho hc]; rfl

/-- Witness for C5 at a concrete one-trial input. -/
theorem logistics_strategy_and_envelope_witness :
    ((calculate_logistics_costs 0 0 sampleLogisticsParams [(0, 1, 1)]).optimal_strategy =
        Strategy.inhouse ↔
      meanQ (ownSamples sampleLogisticsParams 0 0 [(0, 1, 1)]) <
        meanQ (contractorSamples sampleLogisticsParams 0 0 [(0, 1, 1)])) ∧
    (calculate_logistics_costs 0 0 sampleLogisticsParams [(0, 1, 1)]).total_cost =
      pyInt (min (meanQ (ownSamples sampleLogisticsParams 0 0 [(0, 1, 1)]))
        (meanQ (contractorSamples sampleLogisticsParams 0 0 [(0, 1, 1)]))) ∧
    (calculate_logistics_costs 0 0 sampleLogisticsParams [(0, 1, 1)]).min_cost =
      pyInt (listMin (ownSamples sampleLogisticsParams 0 0 [(0, 1, 1)] ++
        contractorSamples sampleLogisticsParams 0 0 [(0, 1, 1)])) ∧
    (calculate_logistics_costs 0 0 sampleLogisticsParams [(0, 1, 1)]).max_cost =
      pyInt (listMax (ownSamples sampleLogisticsParams 0 0 [(0, 1, 1)] ++
        contractorSamples sampleLogisticsParams 0 0 [(0, 1, 1)])) :=
  logistics_strategy_and_envelope 0 0 sampleLogisticsParams [(0, 1, 1)]
    (List.cons_ne_nil _ _)

/-- C6: with `budget_constraint = None` the constraint list passed to the
minimizer is exactly the two non-negativity inequality constraints; no budget
constraint is ever appended. -/
theorem constraints_without_budget (n_months : ℕ) (inv : Inventory) (P : AggParams)
    (scen : ℕ → MonthScen) :
    optimizationConstraints n_months inv P scen none =
      [prodNonnegConstraint n_months, ordersNonnegConstraint n_months] := rfl

/-- C9: `budget_constraint = 0` is falsy for the `if budget_constraint:` test,
so a zero budget produces the same constraint list as `None`: the budget
inequality is not added. -/
theorem constraints_zero_budget_as_none (n_months : ℕ) (inv : Inventory) (P : AggParams)
    (scen : ℕ → MonthScen) :
    optimizationConstraints n_months inv P scen (some 0) =
      optimizationConstraints n_months inv P scen none ∧
    optimizationConstraints n_months inv P scen (some 0) =
      [prodNonnegConstraint n_months, ordersNonnegConstraint n_months] :=
  ⟨by simp [optimizationConstraints], by simp [optimizationConstraints]⟩

lemma projectGo_all_nonneg (plan orders : List ℚ) (s : ℚ) (l : List ℕ) :
    ∀ (raw goods : ℚ),
      (∀ q ∈ (projectGo plan orders s l raw goods).1, 0 ≤ q) ∧
      (∀ q ∈ (projectGo plan orders s l raw goods).2, 0 ≤ q) := by
  induction l with
  | nil => intro raw goods; simp [projectGo]
  | cons m rest ih =>
    intro raw goods
    rw [projectGo]
    constructor
    · intro q hq
      rcases List.mem_cons.mp hq with rfl | hmem
      · exact le_max_left _ _
      · exact (ih _ _).1 q hmem
    · intro q hq
      rcases List.mem_cons.mp hq with rfl | hmem
      · exact le_max_left _ _
      · exact (ih _ _).2 q hmem

/-- C7: for every non-negative production and purchase plan and every starting
inventory, every raw-material level and every finished-goods level in the
trajectory returned by `project_inventory` is `≥ 0` — each month is clamped
with `max(0, ...)` rather than reported as a shortfall. -/
theorem project_inventory_nonneg (plan orders : List ℚ) (inv : Inventory)
    (mats : List Material)
    (_hplan : ∀ p ∈ plan, 0 ≤ p) (_horders : ∀ o ∈ orders, 0 ≤ o) :
    (∀ q ∈ (project_inventory plan orders inv mats).raw_material, 0 ≤ q) ∧
    (∀ q ∈ (project_inventory plan orders inv mats).finished_goods, 0 ≤ q) :=
  projectGo_all_nonneg plan orders ((mats.map Material.perBox).sum)
    (List.range plan.length) inv.raw_material inv.goods

/-- Witness for C7 at a concrete plan with an intra-month shortfall. -/
theorem project_inventory_nonneg_witness :
    (∀ q ∈ (project_inventory [5, 1] [0, 2] sampleInv sampleMats).raw_material, 0 ≤ q) ∧
    (∀ q ∈ (project_inventory [5, 1] [0, 2] sampleInv sampleMats).finished_goods, 0 ≤ q) :=
  project_inventory_nonneg [5, 1] [0, 2] sampleInv sampleMats
    (by intro p hp; simp only [List.mem_cons, List.not_mem_nil, or_false] at hp
        rcases hp with rfl | rfl <;> norm_num)
    (by intro o ho; simp only [List.mem_cons, List.not_mem_nil, or_false] at ho
        rcases ho with rfl | rfl <;> norm_num)

/-- C8, counterexample: the claim quantifies over all inputs, but a negative
`target_boxes` (a legal `int` argument, and a value the optimizer-facing
caller can pass through `raw_material_orders`) makes the safety stock
negative: `target_boxes = -30`, one material with consumption rate `1`,
`defect_rate = 0`, `safety_stock_days = 1` gives safety stock `-1`. -/
theorem safety_stock_nonneg_claim_false :
    (calculate_raw_material_costs [⟨"plastic", 1, 1, 0⟩] (-30) 0 0 1 [[(0, 1)]]).safety_stock =
      [-1] ∧ ¬ (0 ≤ (-1 : ℚ)) := by
  constructor
  · show [safetyStockOf (-30) 0 1 ⟨"plastic", 1, 1, 0⟩] = [-1]
    unfold safetyStockOf requiredMaterial
    norm_num
  · norm_num

/-- C8, amended: whenever `target_boxes`, `defect_rate`, `safety_stock_days`
and every per-box consumption rate are non-negative, every material's safety
stock quantity is non-negative; and for all inputs the safety stock scales
linearly with `safety_stock_days`: doubling `safety_stock_days` doubles every
quantity, and `safety_stock_days = 0` gives `0` for every material.  Only the
non-negativity conjunct carries the sign hypotheses; the two linearity
conjuncts are unconditional. -/
theorem safety_stock_nonneg_and_linear (mats : List Material)
    (target defect drisk days : ℚ) (trials : List (List (ℚ × ℚ))) :
    (0 ≤ target → 0 ≤ defect → 0 ≤ days → (∀ m ∈ mats, 0 ≤ m.perBox) →
      ∀ q ∈ (calculate_raw_material_costs mats target defect drisk days trials).safety_stock,
        0 ≤ q) ∧
    (calculate_raw_material_costs mats target defect drisk (2 * days) trials).safety_stock =
      (calculate_raw_material_costs mats target defect drisk days trials).safety_stock.map
        (fun q => 2 * q) ∧
    (calculate_raw_material_costs mats target defect drisk 0 trials).safety_stock =
      mats.map (fun _ => 0) := by
  refine ⟨?_, ?_, ?_⟩
  · intro htarget hdefect hdays hmats q hq
    have hq2 : q ∈ mats.map (safetyStockOf target defect days) := hq
    rcases List.mem_map.mp hq2 with ⟨m, hm, rfl⟩
    unfold safetyStockOf requiredMaterial
    have h1 : 0 ≤ 1 + defect := by linarith
    have h2 : 0 ≤ m.perBox := hmats m hm
    positivity
  · show mats.map (safetyStockOf target defect (2 * days)) =
      (mats.map (safetyStockOf target defect days)).map (fun q => 2 * q)
    rw [List.map_map]
    apply List.map_congr_left
    intro m _
    unfold safetyStockOf requiredMaterial
    simp only [Function.comp_apply]
    ring
  · show mats.map (safetyStockOf target defect 0) = mats.map (fun _ => 0)
    apply List.map_congr_left
    intro m _
    unfold safetyStockOf requiredMaterial
    ring

/-- Witness for the amended C8 at a concrete input. -/
theorem safety_stock_nonneg_and_linear_witness :
    (∀ q ∈ (calculate_raw_material_costs sampleMats 30 0 0 2 [[(0, 1)]]).safety_stock,
      0 ≤ q) ∧
    (calculate_raw_material_costs sampleMats 30 0 0 (2 * 2) [[(0, 1)]]).safety_stock =
      (calculate_raw_material_costs sampleMats 30 0 0 2 [[(0, 1)]]).safety_stock.map
        (fun q => 2 * q) ∧
    (calculate_raw_material_costs sampleMats 30 0 0 0 [[(0, 1)]]).safety_stock =
      sampleMats.map (fun _ => 0) := by
  obtain ⟨h1, h2, h3⟩ := safety_stock_nonneg_and_linear sampleMats 30 0 0 2 [[(0, 1)]]
  refine ⟨h1 (by norm_num) (by norm_num) (by norm_num) ?_, h2, h3⟩
  intro m hm
  simp only [sampleMats, List.mem_cons, List.not_mem_nil, or_false] at hm
  subst hm
  norm_num

/-- C1, counterexample: at the one-month plan `[20000]` with the default
baseline target `10000`, cumulative planned production (20000) meets and
exceeds the baseline (`1 × 10000`), yet `demand_risk` is `1/2`, not `0`:
the formula on line 209 measures the relative excess of production *above*
the baseline, not the shortfall below it. -/
theorem demand_risk_claim_false :
    ((List.length [(20000 : ℚ)] : ℚ)) * 10000 ≤ List.sum [(20000 : ℚ)] ∧
    (calculate_total_cost [20000] [0] sampleInv sampleAggParams
        sampleScen).1.risk_metrics.demand_risk = 1/2 ∧
    ¬ ((1 : ℚ)/2 = 0) := by
  refine ⟨by norm_num, ?_, by norm_num⟩
  show demandRiskVal [20000]
    (sampleAggParams.production_params.target_boxes.getD 10000) = 1/2
  simp only [sampleAggParams, sampleProductionParams, Option.getD_none, demandRiskVal]
  norm_num

/-- C1, amended: whenever the production plan has positive cumulative sum,
`calculate_total_cost` is defined and its `demand_risk` equals
`max(0, (sum(plan) - total_months * target) / sum(plan))` — the relative
*excess* of cumulative planned production above the per-month target baseline
(`target = production_params.get('target_boxes', 10000)`).  It is
non-negative, and it is zero whenever cumulative production is at or *below*
the baseline. -/
theorem demand_risk_relative_excess (plan orders : List ℚ) (inv : Inventory)
    (P : AggParams) (scen : ℕ → MonthScen) (h : 0 < plan.sum) :
    (calculate_total_cost plan orders inv P scen).1.risk_metrics.demand_risk =
      max 0 ((plan.sum - (plan.length : ℚ) *
        (P.production_params.target_boxes.getD 10000)) / plan.sum) ∧
    0 ≤ (calculate_total_cost plan orders inv P scen).1.risk_metrics.demand_risk ∧
    (plan.sum ≤ (plan.length : ℚ) * (P.production_params.target_boxes.getD 10000) →
      (calculate_total_cost plan orders inv P scen).1.risk_metrics.demand_risk = 0) := by
  refine ⟨rfl, ?_, ?_⟩
  · show 0 ≤ demandRiskVal plan (P.production_params.target_boxes.getD 10000)
    exact le_max_left _ _
  · intro hle
    show demandRiskVal plan (P.production_params.target_boxes.getD 10000) = 0
    unfold demandRiskVal
    apply max_eq_left
    exact div_nonpos_iff.mpr (Or.inr ⟨sub_nonpos.mpr hle, le_of_lt h⟩)

/-- Witness for the amended C1 at the plan `[20000]`. -/
theorem demand_risk_relative_excess_witness :
    (calculate_total_cost [20000] [0] sampleInv sampleAggParams
        sampleScen).1.risk_metrics.demand_risk =
      max 0 ((List.sum [(20000 : ℚ)] - (List.length [(20000 : ℚ)] : ℚ) *
        (sampleAggParams.production_params.target_boxes.getD 10000)) /
          List.sum [(20000 : ℚ)]) ∧
    0 ≤ (calculate_total_cost [20000] [0] sampleInv sampleAggParams
        sampleScen).1.risk_metrics.demand_risk ∧
    (List.sum [(20000 : ℚ)] ≤ (List.length [(20000 : ℚ)] : ℚ) *
        (sampleAggParams.production_params.target_boxes.getD 10000) →
      (calculate_total_cost [20000] [0] sampleInv sampleAggParams
        sampleScen).1.risk_metrics.demand_risk = 0) :=
  demand_risk_relative_excess [20000] [0] sampleInv sampleAggParams sampleScen (by norm_num)

lemma objective_eq (target_boxes risk_tolerance : ℚ) (n_months : ℕ)
    (inv : Inventory) (P : AggParams) (scen : ℕ → MonthScen) (x : List ℚ) :
    (objective target_boxes risk_tolerance n_months inv P scen x).1 =
      (calculate_total_cost (x.take n_months) ((x.drop n_months).take n_months)
          inv P scen).1.total_cost +
        100 * ((x.take n_months).map (fun p => (p - target_boxes) ^ 2)).sum +
        1000000 * max 0 ((calculate_total_cost (x.take n_months)
          ((x.drop n_months).take n_months) inv P scen).1.risk_metrics.total_risk -
            risk_tolerance) := by
  simp only [objective]
  ring

/-- C2: for every decision vector `x` of length `2 * n_months`, the value
minimized by `optimize_business_costs` equals the aggregator's `total_cost`
plus `100 ×` the sum over months of `(monthly production − target_boxes)²`
plus `1 000 000 × max(0, total_risk − risk_tolerance)`. -/
theorem objective_is_cost_plus_penalties (target_boxes risk_tolerance : ℚ)
    (n_months : ℕ) (inv : Inventory) (P : AggParams) (scen : ℕ → MonthScen)
    (x : List ℚ) (_hlen : x.length = 2 * n_months) :
    (objective target_boxes risk_tolerance n_months inv P scen x).1 =
      (calculate_total_cost (x.take n_months) ((x.drop n_months).take n_months)
          inv P scen).1.total_cost +
        100 * ((x.take n_months).map (fun p => (p - target_boxes) ^ 2)).sum +
        1000000 * max 0 ((calculate_total_cost (x.take n_months)
          ((x.drop n_months).take n_months) inv P scen).1.risk_metrics.total_risk -
            risk_tolerance) :=
  objective_eq target_boxes risk_tolerance n_months inv P scen x

/-- Witness for C2 at the decision vector `[1, 0]` over one month. -/
theorem objective_is_cost_plus_penalties_witness :
    (objective 0 0 1 sampleInv sampleAggParams sampleScen [1, 0]).1 =
      (calculate_total_cost (List.take 1 [1, 0]) ((List.drop 1 [1, 0]).take 1)
          sampleInv sampleAggParams sampleScen).1.total_cost +
        100 * ((List.take 1 [1, 0]).map (fun p => (p - 0) ^ 2)).sum +
        1000000 * max 0 ((calculate_total_cost (List.take 1 [1, 0])
          ((List.drop 1 [1, 0]).take 1) sampleInv sampleAggParams
            sampleScen).1.risk_metrics.total_risk - 0) :=
  objective_is_cost_plus_penalties 0 0 1 sampleInv sampleAggParams sampleScen [1, 0]
    (by norm_num)

lemma monthLoop_inventory (P : AggParams) (plan orders : List ℚ) (months : ℕ)
    (scen : ℕ → MonthScen) (l : List ℕ) :
    ∀ st : LoopState,
      ((l.foldl (monthStep P plan orders months scen) st).inv.raw_material =
        st.inv.raw_material +
          (l.map (fun m => orders.getD m 0 - plan.getD m 0 * matsSum P)).sum) ∧
      ((l.foldl (monthStep P plan orders months scen) st).inv.goods =
        st.inv.goods + (l.map (fun m => plan.getD m 0 -
          P.logistics_params.estimated_sales.getD (plan.getD m 0 * (9/10)))).sum) := by
  induction l with
  | nil => intro st; simp
  | cons a t ih =>
    intro st
    simp only [List.foldl_cons, List.map_cons, List.sum_cons]
    obtain ⟨ih1, ih2⟩ := ih (monthStep P plan orders months scen st a)
    constructor
    · rw [ih1]
      show (monthStep P plan orders months scen st a).inv.raw_material + _ = _
      simp only [monthStep]
      ring
    · rw [ih2]
      show (monthStep P plan orders months scen st a).inv.goods + _ = _
      simp only [monthStep]
      ring

/-- C3: every (completing) call to `calculate_total_cost` leaves the
caller-supplied inventory mutated across the month loop: afterwards its
`raw_material` entry has gained each month's purchases minus that month's
consumption (`orders[m] − plan[m] × sum(material_per_box)`) and its `goods`
entry each month's production minus the assumed sales
(`plan[m] − estimated_sales`, defaulting to `0.9 × plan[m]`); so a repeated
evaluation handed this returned inventory does not start from the caller's
initial state. -/
theorem inventory_mutated_across_months (plan orders : List ℚ) (inv : Inventory)
    (P : AggParams) (scen : ℕ → MonthScen)
    (_htrials : ∀ m < plan.length, (scen m).rawTrials ≠ [] ∧ (scen m).prodTrials ≠ [] ∧
      (scen m).storTrials ≠ [] ∧ (scen m).logTrials ≠ []) :
    (calculate_total_cost plan orders inv P scen).2.raw_material =
      inv.raw_material + ((List.range plan.length).map
        (fun m => orders.getD m 0 - plan.getD m 0 * matsSum P)).sum ∧
    (calculate_total_cost plan orders inv P scen).2.goods =
      inv.goods + ((List.range plan.length).map
        (fun m => plan.getD m 0 -
          P.logistics_params.estimated_sales.getD (plan.getD m 0 * (9/10)))).sum :=
  monthLoop_inventory P plan orders plan.length scen (List.range plan.length)
    ⟨0, 0, 0, 0, 0, 0, inv⟩

/-- Witness for C3 over a one-month plan. -/
theorem inventory_mutated_across_months_witness :
    (calculate_total_cost [5] [3] sampleInv sampleAggParams sampleScen).2.raw_material =
      sampleInv.raw_material + ((List.range (List.length [(5 : ℚ)])).map
        (fun m => List.getD [(3 : ℚ)] m 0 -
          List.getD [(5 : ℚ)] m 0 * matsSum sampleAggParams)).sum ∧
    (calculate_total_cost [5] [3] sampleInv sampleAggParams sampleScen).2.goods =
      sampleInv.goods + ((List.range (List.length [(5 : ℚ)])).map
        (fun m => List.getD [(5 : ℚ)] m 0 -
          sampleAggParams.logistics_params.estimated_sales.getD
            (List.getD [(5 : ℚ)] m 0 * (9/10)))).sum :=
  inventory_mutated_across_months [5] [3] sampleInv sampleAggParams sampleScen
    (by intro m _
        exact ⟨List.cons_ne_nil _ _, List.cons_ne_nil _ _,
          List.cons_ne_nil _ _, List.cons_ne_nil _ _⟩)

/-- C10, counterexample: at the all-zero one-month plan the program does not
leave `demand_risk` undefined: numpy's division by zero only warns and the
enclosing `max(0, ·)` clamps the quotient, so `demand_risk` evaluates to `0`
(the embedding's `q / 0 = 0` convention yields the same clamped value). -/
theorem zero_plan_defined_claim_false :
    List.sum [(0 : ℚ)] = 0 ∧
    (calculate_total_cost [0] [0] sampleInv sampleAggParams
        sampleScen).1.risk_metrics.demand_risk = 0 := by
  refine ⟨by norm_num, ?_⟩
  show demandRiskVal [0] (sampleAggParams.production_params.target_boxes.getD 10000) = 0
  simp [demandRiskVal, sampleAggParams, sampleProductionParams]

/-- C10, amended: `calculate_total_cost` does divide by
`np.sum(production_plan)` in the `demand_risk` formula, and on every plan
summing to zero that division is by zero; but the surrounding `max(0, ·)`
clamps the non-finite quotient, so `demand_risk` evaluates to `0`,
`total_risk` degenerates to the mean of the other two risks with a zero
demand term, and the objective still evaluates to total cost plus penalties
on every decision vector whose production block sums to zero — the objective
stays total on the non-negative orthant. -/
theorem zero_plan_demand_risk_clamped (plan orders : List ℚ) (inv : Inventory)
    (P : AggParams) (scen : ℕ → MonthScen) (target_boxes risk_tolerance : ℚ)
    (n_months : ℕ) (x : List ℚ)
    (h : plan.sum = 0) (_hx : (x.take n_months).sum = 0) :
    (calculate_total_cost plan orders inv P scen).1.risk_metrics.demand_risk = 0 ∧
    (calculate_total_cost plan orders inv P scen).1.risk_metrics.total_risk =
      ((calculate_total_cost plan orders inv P scen).1.risk_metrics.supply_risk +
        (calculate_total_cost plan orders inv P scen).1.risk_metrics.production_risk +
        0) / 3 ∧
    (objective target_boxes risk_tolerance n_months inv P scen x).1 =
      (calculate_total_cost (x.take n_months) ((x.drop n_months).take n_months)
          inv P scen).1.total_cost +
        100 * ((x.take n_months).map (fun p => (p - target_boxes) ^ 2)).sum +
        1000000 * max 0 ((calculate_total_cost (x.take n_months)
          ((x.drop n_months).take n_months) inv P scen).1.risk_metrics.total_risk -
            risk_tolerance) := by
  have hd : demandRiskVal plan (P.production_params.target_boxes.getD 10000) = 0 := by
    unfold demandRiskVal
    rw [h, div_zero]
    exact max_eq_left le_rfl
  refine ⟨hd, ?_, objective_eq target_boxes risk_tolerance n_months inv P scen x⟩
  show ((monthLoop plan orders inv P scen).supply + (monthLoop plan orders inv P scen).prisk +
      demandRiskVal plan (P.production_params.target_boxes.getD 10000)) / 3 =
    ((monthLoop plan orders inv P scen).supply + (monthLoop plan orders inv P scen).prisk +
      0) / 3
  rw [hd]

/-- Witness for the amended C10 at the all-zero plan and decision vector. -/
theorem zero_plan_demand_risk_clamped_witness :
    (calculate_total_cost [0] [0] sampleInv sampleAggParams
        sampleScen).1.risk_metrics.demand_risk = 0 ∧
    (calculate_total_cost [0] [0] sampleInv sampleAggParams
        sampleScen).1.risk_metrics.total_risk =
      ((calculate_total_cost [0] [0] sampleInv sampleAggParams
          sampleScen).1.risk_metrics.supply_risk +
        (calculate_total_cost [0] [0] sampleInv sampleAggParams
          sampleScen).1.risk_metrics.production_risk + 0) / 3 ∧
    (objective 10000 (1/10) 1 sampleInv sampleAggParams sampleScen [0, 0]).1 =
      (calculate_total_cost (List.take 1 [0, 0]) ((List.drop 1 [0, 0]).take 1)
          sampleInv sampleAggParams sampleScen).1.total_cost +
        100 * ((List.take 1 [0, 0]).map (fun p => (p - 10000) ^ 2)).sum +
        1000000 * max 0 ((calculate_total_cost (List.take 1 [0, 0])
          ((List.drop 1 [0, 0]).take 1) sampleInv sampleAggParams
            sampleScen).1.risk_metrics.total_risk - 1/10) :=
  zero_plan_demand_risk_clamped [0] [0] sampleInv sampleAggParams sampleScen
    10000 (1/10) 1 [0, 0] (by norm_num) (by norm_num)
